import Mathlib

/-!
# Shallow embedding of the `win` platform-call wrappers

The Go packages `api` (ntdll, winhttp, wininet wrappers), `types` and `winhttp`
(the client) are embedded as pure functions.  A platform call `dll.NewProc(proc).Call(args...)`
is external: every wrapper takes the platform's `Reply` as an argument and
returns, next to its Go results, the list of platform calls it issued.

* `uintptr`, `syscall.Handle` and `uint32` values are natural numbers; the one
  narrowing conversion of the source, `uint32(err)`, is written `% 2 ^ 32`.
* A pointer argument is recorded by the words it points to when the call is made.
-/

namespace Win

/-! ## Errors (`errors.Newf`) -/

/-- An operand of a formatting verb. -/
inductive FmtArg
  | str (s : String)
  | u32 (n : Nat)
  | wrapped (msg : String)
  deriving DecidableEq

/-- The rendering Go gives an operand under the verb it is used with
(`%s`, `%0x` on a `uint32`, `%w`): the string itself, the lower-case
hexadecimal numeral without padding, the wrapped error's message. -/
def FmtArg.render : FmtArg → List Char
  | .str s => s.data
  | .u32 n => Nat.toDigits 16 n
  | .wrapped m => m.data

/-- Substitution of the operands for the verbs of a format, left to right.
Only the verbs the repository uses are known: `%s`, `%0x` and `%w`. -/
def Sprintf : List Char → List FmtArg → List Char
  | [], _ => []
  | '%' :: 's' :: rest, .str s :: as => (FmtArg.str s).render ++ Sprintf rest as
  | '%' :: 'w' :: rest, .wrapped m :: as => (FmtArg.wrapped m).render ++ Sprintf rest as
  | '%' :: '0' :: 'x' :: rest, .u32 n :: as => (FmtArg.u32 n).render ++ Sprintf rest as
  | c :: rest, as => c :: Sprintf rest as

/-- An error value made by `errors.Newf`: the format and its operands. -/
structure GoError where
  format : String
  args : List FmtArg
  deriving DecidableEq

/-- Modelled from the spec: package `errors` of the repository is not among the
sources. `Newf(format, args...)` builds an error from a format and operands,
as `fmt.Errorf` does; the spec asks that such an error "carries the original
numeric code and the procedure name". -/
def Newf (format : String) (args : List FmtArg) : GoError :=
  ⟨format, args⟩

/-- The message of an error, `e.Error()`. -/
def GoError.Error (e : GoError) : String :=
  ⟨Sprintf e.format.data e.args⟩

/-! ## Platform calls -/

/-- One argument of a platform call: a word, a pointer to cells (bytes, words
or wide characters), or a pointer to an array of wide-string pointers, each of
them nil (`none`) or a pointer to wide characters. -/
inductive Arg
  | val (w : Nat)
  | ptr (cells : List Nat)
  | ptrs (elems : List (Option (List Nat)))
  deriving DecidableEq

/-- A call `dll.NewProc(proc).Call(args...)`. -/
structure Call where
  proc : String
  args : List Arg
  deriving DecidableEq

/-- What the platform answers to one call: the primary result `r1`, the word
found after the call in the cell the wrapper reads back (`addr`, `*sHndl`,
`scBase`, `pHndl`, `tHndl`), and the message of the transport error. -/
structure Reply where
  r1 : Nat
  out : Nat
  lastErr : String
  deriving DecidableEq

/-- What a wrapper hands back: the platform calls issued, the text printed on
standard output, the Go result value and the Go error (`none` is `nil`). -/
structure Ret (α : Type) where
  calls : List Call
  stdout : String
  value : α
  err : Option GoError
  deriving DecidableEq

/-! ## `api/ntdll_windows.go` -/

/-- NtAllocateVirtualMemory from ntdll. -/
def NtAllocateVirtualMemory (pHndl size allocType protection : Nat)
    (reply : Reply) : Ret Nat :=
  let proc := "NtAllocateVirtualMemory"
  let call : Call :=
    ⟨proc, [.val pHndl, .ptr [0], .val 0, .ptr [size], .val allocType, .val protection]⟩
  let err := reply.r1
  let addr := reply.out
  if err ≠ 0 then
    ⟨[call], "", 0, some (Newf "%s returned %0x" [.str proc, .u32 (err % 2 ^ 32)])⟩
  else if addr = 0 then
    ⟨[call], "", 0, some (Newf "%s failed for unknown reason" [.str proc])⟩
  else
    ⟨[call], "\n\x1b[1A", addr, none⟩

/-- NtCreateSection from ntdll. `sHndl` is the word in `*sHndl` before the
call; the value handed back is the word in `*sHndl` after it. -/
def NtCreateSection (sHndl access size pagePerms secPerms : Nat)
    (reply : Reply) : Ret Nat :=
  let proc := "NtCreateSection"
  let call : Call :=
    ⟨proc, [.ptr [sHndl], .val access, .val 0, .ptr [size], .val pagePerms,
      .val secPerms, .val 0]⟩
  let err := reply.r1
  if err ≠ 0 then
    ⟨[call], "", reply.out, some (Newf "%s returned %0x" [.str proc, .u32 (err % 2 ^ 32)])⟩
  else if reply.out = 0 then
    ⟨[call], "", reply.out, some (Newf "%s failed for unknown reason" [.str proc])⟩
  else
    ⟨[call], "", reply.out, none⟩

/-- NtMapViewOfSection from ntdll. -/
def NtMapViewOfSection (sHndl pHndl size inheritPerms pagePerms : Nat)
    (reply : Reply) : Ret Nat :=
  let proc := "NtMapViewOfSection"
  let call : Call :=
    ⟨proc, [.val sHndl, .val pHndl, .ptr [0], .val 0, .val 0, .ptr [0], .ptr [size],
      .val inheritPerms, .val 0, .val pagePerms]⟩
  let err := reply.r1
  let scBase := reply.out
  if err ≠ 0 then
    ⟨[call], "", 0, some (Newf "%s returned %0x" [.str proc, .u32 (err % 2 ^ 32)])⟩
  else if scBase = 0 then
    ⟨[call], "", 0, some (Newf "%s failed for unknown reason" [.str proc])⟩
  else
    ⟨[call], "", scBase, none⟩

/-- NtOpenProcess from ntdll. -/
def NtOpenProcess (pid access : Nat) (reply : Reply) : Ret Nat :=
  let proc := "NtOpenProcess"
  let call : Call :=
    ⟨proc, [.ptr [0], .val access, .ptr [0, 0, 0, 0, 0, 0], .ptr [pid, 0]]⟩
  let err := reply.r1
  let pHndl := reply.out
  if err ≠ 0 then
    ⟨[call], "", 0, some (Newf "%s returned %0x" [.str proc, .u32 (err % 2 ^ 32)])⟩
  else if pHndl = 0 then
    ⟨[call], "", 0, some (Newf "%s failed for unknown reason" [.str proc])⟩
  else
    ⟨[call], "", pHndl, none⟩

/-- NtQueueApcThread from ntdll. -/
def NtQueueApcThread (tHndl apcRoutine : Nat) (reply : Reply) : Ret Unit :=
  let proc := "NtQueueApcThread"
  let call : Call := ⟨proc, [.val tHndl, .val apcRoutine, .val 0, .val 0, .val 0]⟩
  let err := reply.r1
  if err ≠ 0 then
    ⟨[call], "", (), some (Newf "%s returned %0x" [.str proc, .u32 (err % 2 ^ 32)])⟩
  else
    ⟨[call], "", (), none⟩

/-- NtQueueApcThreadEx from ntdll. -/
def NtQueueApcThreadEx (tHndl apcRoutine : Nat) (reply : Reply) : Ret Unit :=
  let proc := "NtQueueApcThreadEx"
  let call : Call :=
    ⟨proc, [.val tHndl, .val 0x1, .val apcRoutine, .val 0, .val 0, .val 0]⟩
  let err := reply.r1
  if err ≠ 0 then
    ⟨[call], "", (), some (Newf "%s returned %0x" [.str proc, .u32 (err % 2 ^ 32)])⟩
  else
    ⟨[call], "", (), none⟩

/-- NtResumeThread from ntdll. -/
def NtResumeThread (tHndl : Nat) (reply : Reply) : Ret Unit :=
  let proc := "NtResumeThread"
  let call : Call := ⟨proc, [.val tHndl, .val 0]⟩
  let err := reply.r1
  if err ≠ 0 then
    ⟨[call], "", (), some (Newf "%s returned %0x" [.str proc, .u32 (err % 2 ^ 32)])⟩
  else
    ⟨[call], "", (), none⟩

/-- NtWriteVirtualMemory from ntdll. The arguments are evaluated before the
call: `&b[0]` on an empty slice is a run-time panic (`Except.error`, with the
message of the Go runtime), and then no call is issued and nothing is returned. -/
def NtWriteVirtualMemory (pHndl dst : Nat) (b : List Nat)
    (reply : Reply) : Except String (Ret Unit) :=
  let proc := "NtWriteVirtualMemory"
  match b with
  | [] => .error "runtime error: index out of range [0] with length 0"
  | b0 :: bs =>
    let call : Call :=
      ⟨proc, [.val pHndl, .val dst, .ptr (b0 :: bs), .val (b0 :: bs).length]⟩
    let err := reply.r1
    if err ≠ 0 then
      .ok ⟨[call], "", (), some (Newf "%s returned %0x" [.str proc, .u32 (err % 2 ^ 32)])⟩
    else
      .ok ⟨[call], "", (), none⟩

/-- RtlCreateUserThread from ntdll. -/
def RtlCreateUserThread (pHndl addr : Nat) (sspnd : Bool) (reply : Reply) : Ret Nat :=
  let proc := "RtlCreateUserThread"
  let suspend : Nat := if sspnd then 1 else 0
  let call : Call :=
    ⟨proc, [.val pHndl, .val 0, .val suspend, .val 0, .val 0, .val 0, .val addr, .val 0,
      .ptr [0], .val 0]⟩
  let err := reply.r1
  let tHndl := reply.out
  if err ≠ 0 then
    ⟨[call], "", 0, some (Newf "%s returned %0x" [.str proc, .u32 (err % 2 ^ 32)])⟩
  else if tHndl = 0 then
    ⟨[call], "", 0, some (Newf "%s failed for unknown reason" [.str proc])⟩
  else
    ⟨[call], "", tHndl, none⟩

/-! ## Strings

A Go string is embedded as a Lean `String`: a sequence of Unicode code points,
that is, a Go string holding valid UTF-8. -/

/-- The number of bytes of a code point in UTF-8. -/
def utf8Len (c : Char) : Nat :=
  if c.toNat < 0x80 then 1
  else if c.toNat < 0x800 then 2
  else if c.toNat < 0x10000 then 3
  else 4

/-- Go's builtin `len` on a string: its length in bytes. -/
def len (s : String) : Nat :=
  (s.data.map utf8Len).sum

/-- The UTF-16 code units of a code point: itself below U+10000, a surrogate
pair from there on. -/
def utf16Units (c : Char) : List Nat :=
  if c.toNat < 0x10000 then [c.toNat]
  else [0xD800 + (c.toNat - 0x10000) / 0x400, 0xDC00 + (c.toNat - 0x10000) % 0x400]

/-- The UTF-16 encoding of a string, without terminator: its wide characters. -/
def utf16Encode (s : String) : List Nat :=
  (s.data.map utf16Units).flatten

/-- Go's `unicode.IsSpace`: the code points of the Unicode White_Space property. -/
def IsSpace (c : Char) : Bool :=
  let r := c.toNat
  (0x09 ≤ r && r ≤ 0x0D) || r == 0x20 || r == 0x85 || r == 0xA0 || r == 0x1680 ||
    (0x2000 ≤ r && r ≤ 0x200A) || r == 0x2028 || r == 0x2029 || r == 0x202F ||
    r == 0x205F || r == 0x3000

/-- Go's `strings.TrimSpace`: the string without its leading and trailing
white space. -/
def TrimSpace (s : String) : String :=
  ⟨((s.data.dropWhile IsSpace).reverse.dropWhile IsSpace).reverse⟩

/-- Go's `syscall.UTF16PtrFromString`: a pointer to the NUL-terminated UTF-16
encoding, or the nil pointer (`none`, with the error `EINVAL`) when the string
holds a NUL. -/
def UTF16PtrFromString (s : String) : Option (List Nat) :=
  if s.data.any (fun c => c.toNat == 0) then none
  else some (utf16Encode s ++ [0])

/-! ## `types/types_windows.go` -/

/-- Cwstr converts a Go string to a Windows wide string; the error of the
conversion is dropped and the pointer handed on as it is. -/
def Cwstr (str : String) : Option (List Nat) :=
  UTF16PtrFromString str

/-- LpCwstr converts a Go string to a Windows wide string pointer. -/
def LpCwstr (str : String) : Arg :=
  if str = "" then .val 0
  else
    match Cwstr str with
    | none => .val 0
    | some units => .ptr units

/-! ## `api/winhttp_windows.go`, `api/wininet_windows.go` -/

/-- WinHTTPAddRequestHeaders is WinHttpAddRequestHeaders from winhttp.h -/
def WinHTTPAddRequestHeaders (reqHndl : Nat) (header : String) (addMethod : Nat)
    (reply : Reply) : Ret Unit :=
  let proc := "WinHttpAddRequestHeaders"
  if header = "" then
    ⟨[], "", (), none⟩
  else
    let header := TrimSpace header ++ "\r\n"
    let call : Call :=
      ⟨proc, [.val reqHndl, LpCwstr header, .val (len header), .val addMethod]⟩
    let ok := reply.r1
    if ok = 0 then
      ⟨[call], "", (), some (Newf "%s: %w" [.str proc, .wrapped reply.lastErr])⟩
    else
      ⟨[call], "", (), none⟩

/-- HTTPAddRequestHeadersW is from wininet.h -/
def HTTPAddRequestHeadersW (reqHndl : Nat) (header : String) (addMethod : Nat)
    (reply : Reply) : Ret Unit :=
  let proc := "HttpAddRequestHeadersW"
  if header = "" then
    ⟨[], "", (), none⟩
  else
    let header := TrimSpace header ++ "\r\n"
    let call : Call :=
      ⟨proc, [.val reqHndl, LpCwstr header, .val (len header), .val addMethod]⟩
    let ok := reply.r1
    if ok = 0 then
      ⟨[call], "", (), some (Newf "%s: %w" [.str proc, .wrapped reply.lastErr])⟩
    else
      ⟨[call], "", (), none⟩

/-- WinHTTPOpen is WinHttpOpen from winhttp.h -/
def WinHTTPOpen (userAgent : String) (accessType : Nat) (proxy proxyBypass : String)
    (flags : Nat) (reply : Reply) : Ret Nat :=
  let proc := "WinHttpOpen"
  let call : Call :=
    ⟨proc, [LpCwstr userAgent, .val accessType, LpCwstr proxy, LpCwstr proxyBypass,
      .val flags]⟩
  let sessionHndl := reply.r1
  if sessionHndl = 0 then
    ⟨[call], "", 0, some (Newf "%s: %w" [.str proc, .wrapped reply.lastErr])⟩
  else
    ⟨[call], "", sessionHndl, none⟩

/-- WinHTTPOpenRequest is WinHttpOpenRequest from winhttp.h. The slice
`ppwszAcceptTypes` starts as `make([]*uint16, 1)`, one nil pointer, and the loop
appends to it; the platform gets the address of its first element. -/
def WinHTTPOpenRequest (connHndl : Nat) (verb objectName version referrer : String)
    (acceptTypes : List String) (flags : Nat) (reply : Reply) : Ret Nat :=
  let proc := "WinHttpOpenRequest"
  let ppwszAcceptTypes : List (Option (List Nat)) :=
    acceptTypes.foldl
      (fun acc theType => if theType = "" then acc else acc ++ [Cwstr theType]) [none]
  let call : Call :=
    ⟨proc, [.val connHndl, LpCwstr verb, LpCwstr objectName, LpCwstr version,
      LpCwstr referrer, .ptrs ppwszAcceptTypes, .val flags]⟩
  let reqHndl := reply.r1
  if reqHndl = 0 then
    ⟨[call], "", 0, some (Newf "%s: %w" [.str proc, .wrapped reply.lastErr])⟩
  else
    ⟨[call], "", reqHndl, none⟩

/-- HTTPOpenRequestW is from wininet.h. The slice `lplpcwstrAcceptTypes` is
built as in `WinHTTPOpenRequest`. -/
def HTTPOpenRequestW (connHndl : Nat) (verb objectName version referrer : String)
    (acceptTypes : List String) (flags context : Nat) (reply : Reply) : Ret Nat :=
  let proc := "HttpOpenRequestW"
  let lplpcwstrAcceptTypes : List (Option (List Nat)) :=
    acceptTypes.foldl
      (fun acc theType => if theType = "" then acc else acc ++ [Cwstr theType]) [none]
  let call : Call :=
    ⟨proc, [.val connHndl, LpCwstr verb, LpCwstr objectName, LpCwstr version,
      LpCwstr referrer, .ptrs lplpcwstrAcceptTypes, .val flags, .val context]⟩
  let reqHndl := reply.r1
  if reqHndl = 0 then
    ⟨[call], "", 0, some (Newf "%s: %w" [.str proc, .wrapped reply.lastErr])⟩
  else
    ⟨[call], "", reqHndl, none⟩

/-- WinHTTPSetOption is WinHttpSetOption from winhttp.h. `valLen` is a Go `int`,
handed to the platform as `uintptr(valLen)`; `&val[0]` on an empty slice is a
run-time panic (`Except.error`). -/
def WinHTTPSetOption (hndl opt : Nat) (val : List Nat) (valLen : Int)
    (reply : Reply) : Except String (Ret Unit) :=
  let proc := "WinHttpSetOption"
  let val := if valLen = 0 then [0] else val
  match val with
  | [] => .error "runtime error: index out of range [0] with length 0"
  | v0 :: vs =>
    let call : Call :=
      ⟨proc, [.val hndl, .val opt, .ptr (v0 :: vs), .val (valLen % 2 ^ 64).toNat]⟩
    let success := reply.r1
    if success = 0 then
      .ok ⟨[call], "", (), some (Newf "%s: %w" [.str proc, .wrapped reply.lastErr])⟩
    else
      .ok ⟨[call], "", (), none⟩

/-! ## `winhttp/client.go`

The file that declares the constants `api.Winhttp`, and the files of package
`winhttp` that declare `LpCwstr`, `Request`, `Response`, `buildRequest`,
`sendRequest` and `buildResponse`, are not among the sources: the constants and
what those functions hand back are parameters of the definitions below. -/

/-- The constants of `api.Winhttp` that the client uses. -/
structure WinhttpDefs where
  WinhttpAccessTypeAutomaticProxy : Nat
  WinhttpAccessTypeNamedProxy : Nat
  WinhttpOptionConnectTimeout : Nat
  WinhttpOptionReceiveResponseTimeout : Nat
  WinhttpOptionReceiveTimeout : Nat
  WinhttpOptionResolveTimeout : Nat
  WinhttpOptionSendTimeout : Nat
  WinhttpOptionSecurityFlags : Nat
  SecurityFlagIgnoreUnknownCa : Nat
  SecurityFlagIgnoreCertDateInvalid : Nat
  SecurityFlagIgnoreCertCnInvalid : Nat
  SecurityFlagIgnoreCertWrongUsage : Nat

/-- The anonymous struct of the field `TLSClientConfig`. -/
structure TLSClientConfig where
  InsecureSkipVerify : Bool
  deriving DecidableEq

/-- Client is a struct containing relevant metadata to make HTTP requests.
`Timeout` is a `time.Duration`, a count of nanoseconds. -/
structure Client where
  hndl : Nat
  Timeout : Int
  TLSClientConfig : TLSClientConfig
  deriving DecidableEq

/-- NewClient: `lpCwstr` is the function `LpCwstr` of package `winhttp`, `reply`
the platform's answer to the one call of `WinHTTPOpen`. The value is the
pointer handed back (`some` is non-nil), the error the second result. -/
def NewClient (W : WinhttpDefs) (lpCwstr : String → String) (userAgent proxyname : String)
    (reply : Reply) : Ret (Option Client) :=
  let opened : Ret Nat :=
    if proxyname = "" then
      WinHTTPOpen userAgent W.WinhttpAccessTypeAutomaticProxy "" "" 0 reply
    else
      WinHTTPOpen userAgent W.WinhttpAccessTypeNamedProxy (lpCwstr proxyname) "" 0 reply
  let c : Client := { hndl := opened.value, Timeout := 0, TLSClientConfig := ⟨false⟩ }
  ⟨opened.calls, opened.stdout, some c, none⟩

/-- Go's `time.Duration.Milliseconds`: `int64(d) / 1e6`, rounded toward zero. -/
def Milliseconds (d : Int) : Int :=
  Int.tdiv d 1000000

/-- Go's `binary.LittleEndian.PutUint32` on a 4-byte slice: the bytes of `v`,
lowest first. -/
def PutUint32 (v : Nat) : List Nat :=
  [v % 256, v / 256 % 256, v / 65536 % 256, v / 16777216 % 256]

/-- What a run of `Do` leaves: the platform calls it issued itself (through
`WinHTTPSetOption`), whether `sendRequest` was called, the response pointer
(`none` is nil) and the error. -/
structure DoRet (Response : Type) where
  calls : List Call
  sent : Bool
  res : Option Response
  err : Option GoError

/-- One statement group of `Do`,
`e = w32.WinHTTPSetOption(...); if e != nil ( e = errors.Newf(format, e); return nil, e )`,
after the calls `calls`, followed by the rest of the function. -/
def Client.Do.setOption {Response : Type} (calls : List Call)
    (set : Except String (Ret Unit)) (format : String)
    (next : List Call → Except String (DoRet Response)) :
    Except String (DoRet Response) :=
  match set with
  | .error p => .error p
  | .ok r =>
    match r.err with
    | some e => .ok ⟨calls ++ r.calls, false, none, some (Newf format [.wrapped e.Error])⟩
    | none => next (calls ++ r.calls)

/-- Do will send the HTTP request and return an HTTP response. `built` is what
`buildRequest(c.hndl, r)` hands back, `reply n` the platform's answer to the
`n`-th `WinHTTPSetOption` in the text of the function (0 to 4 the timeouts, 5
the security flags), `sendErr` what `sendRequest` hands back and `response`
what `buildResponse` hands back. -/
def Client.Do {Response : Type} (W : WinhttpDefs) (c : Client)
    (built : Nat × Option GoError) (reply : Nat → Reply) (sendErr : Option GoError)
    (response : Option Response × Option GoError) : Except String (DoRet Response) :=
  match built with
  | (_, some e) => .ok ⟨[], false, none, some e⟩
  | (reqHndl, none) =>
    let finish : List Call → Except String (DoRet Response) := fun calls =>
      match sendErr with
      | some e => .ok ⟨calls, true, none, some e⟩
      | none =>
        match response with
        | (_, some e) => .ok ⟨calls, true, none, some e⟩
        | (res, none) => .ok ⟨calls, true, res, none⟩
    let security : List Call → Except String (DoRet Response) := fun calls =>
      if c.TLSClientConfig.InsecureSkipVerify then
        let tlsIgnore : Nat :=
          0 ||| W.SecurityFlagIgnoreUnknownCa ||| W.SecurityFlagIgnoreCertDateInvalid |||
            W.SecurityFlagIgnoreCertCnInvalid ||| W.SecurityFlagIgnoreCertWrongUsage
        let b := PutUint32 (tlsIgnore % 2 ^ 32)
        Client.Do.setOption calls
          (WinHTTPSetOption reqHndl W.WinhttpOptionSecurityFlags b b.length (reply 5))
          "failed to set security flags: %w" finish
      else
        finish calls
    if c.Timeout > 0 then
      let b := PutUint32 (Milliseconds c.Timeout % 2 ^ 32).toNat
      Client.Do.setOption []
        (WinHTTPSetOption reqHndl W.WinhttpOptionConnectTimeout b b.length (reply 0))
        "failed to set connect timeout: %w" fun calls =>
      Client.Do.setOption calls
        (WinHTTPSetOption reqHndl W.WinhttpOptionReceiveResponseTimeout b b.length (reply 1))
        "failed to set response timeout: %w" fun calls =>
      Client.Do.setOption calls
        (WinHTTPSetOption reqHndl W.WinhttpOptionReceiveTimeout b b.length (reply 2))
        "failed to set receive timeout: %w" fun calls =>
      Client.Do.setOption calls
        (WinHTTPSetOption reqHndl W.WinhttpOptionResolveTimeout b b.length (reply 3))
        "failed to set resolve timeout: %w" fun calls =>
      Client.Do.setOption calls
        (WinHTTPSetOption reqHndl W.WinhttpOptionSendTimeout b b.length (reply 4))
        "failed to set send timeout: %w" security
    else
      security []

/-! ## Vocabulary of the claims -/

/-- The status `STATUS_ACCESS_DENIED` of the platform (ntstatus.h). -/
def STATUS_ACCESS_DENIED : Nat := 0xC0000022

/-- The six primitives whose failures are to be told apart. -/
inductive Step
  | createSection
  | mapViewOfSection
  | createUserThread
  | queueApcThread
  | queueApcThreadEx
  | resumeThread
  deriving DecidableEq

/-- The error a primitive hands back on the inputs `a .. e`, `flag` (each
primitive takes the ones it has, in order) and the platform reply. -/
def Step.err (s : Step) (a b c d e : Nat) (flag : Bool) (reply : Reply) : Option GoError :=
  match s with
  | .createSection => (NtCreateSection a b c d e reply).err
  | .mapViewOfSection => (NtMapViewOfSection a b c d e reply).err
  | .createUserThread => (RtlCreateUserThread a b flag reply).err
  | .queueApcThread => (NtQueueApcThread a b reply).err
  | .queueApcThreadEx => (NtQueueApcThreadEx a b reply).err
  | .resumeThread => (NtResumeThread a reply).err

/-- A platform call that releases the handle `h`: `NtClose` of ntdll or
`CloseHandle` of kernel32 on it. -/
def Call.releases (c : Call) (h : Nat) : Bool :=
  (c.proc == "NtClose" || c.proc == "CloseHandle") && c.args.head? == some (Arg.val h)

/-- The platform procedure a primitive calls. -/
def Step.proc : Step → String
  | .createSection => "NtCreateSection"
  | .mapViewOfSection => "NtMapViewOfSection"
  | .createUserThread => "RtlCreateUserThread"
  | .queueApcThread => "NtQueueApcThread"
  | .queueApcThreadEx => "NtQueueApcThreadEx"
  | .resumeThread => "NtResumeThread"

/-- The characters of a text up to its first blank. -/
def firstWord (cs : List Char) : List Char :=
  cs.takeWhile (fun c => c != ' ')

/-- The value of a hexadecimal digit. -/
def hexDigitValue (c : Char) : Nat :=
  if c.toNat ≤ 57 then c.toNat - 48 else c.toNat - 87

/-- The number a hexadecimal numeral stands for. -/
def hexValue (ds : List Char) : Nat :=
  ds.foldl (fun acc c => 16 * acc + hexDigitValue c) 0

/-- The message of a status error as the code builds it: the procedure name,
" returned ", and the low 32 bits of the status as a lower-case hexadecimal
numeral. -/
def statusMessage (proc : String) (status : Nat) : String :=
  ⟨proc.data ++ (" returned ".data ++ Nat.toDigits 16 (status % 2 ^ 32))⟩

/-- The values that winhttp.h gives the constants of `WinhttpDefs`. -/
def winhttpH : WinhttpDefs where
  WinhttpAccessTypeAutomaticProxy := 4
  WinhttpAccessTypeNamedProxy := 3
  WinhttpOptionConnectTimeout := 3
  WinhttpOptionReceiveResponseTimeout := 7
  WinhttpOptionReceiveTimeout := 6
  WinhttpOptionResolveTimeout := 2
  WinhttpOptionSendTimeout := 5
  WinhttpOptionSecurityFlags := 31
  SecurityFlagIgnoreUnknownCa := 0x100
  SecurityFlagIgnoreCertDateInvalid := 0x2000
  SecurityFlagIgnoreCertCnInvalid := 0x1000
  SecurityFlagIgnoreCertWrongUsage := 0x200

/-- The call that sets option `opt` of the request `reqHndl` to the four bytes
`b`. -/
def setOptionCall (reqHndl opt : Nat) (b : List Nat) : Call :=
  ⟨"WinHttpSetOption", [.val reqHndl, .val opt, .ptr b, .val 4]⟩

/-- The five calls that set the connect, receive-response, receive, resolve and
send timeouts of `reqHndl`, in this order, to the 4-byte little-endian form of
`timeout` (nanoseconds) in whole milliseconds modulo 2^32. -/
def timeoutCalls (W : WinhttpDefs) (reqHndl : Nat) (timeout : Int) : List Call :=
  [W.WinhttpOptionConnectTimeout, W.WinhttpOptionReceiveResponseTimeout,
    W.WinhttpOptionReceiveTimeout, W.WinhttpOptionResolveTimeout,
    W.WinhttpOptionSendTimeout].map
    (fun opt => setOptionCall reqHndl opt (PutUint32 (timeout.toNat / 1000000 % 2 ^ 32)))

/-! ## Lemmas on the rendering of errors -/

theorem hexDigitValue_digitChar (k : Nat) (h : k < 16) :
    hexDigitValue (Nat.digitChar k) = k := by
  interval_cases k <;> rfl

theorem toDigitsCore_acc (fuel : Nat) : ∀ (n : Nat) (ds : List Char),
    Nat.toDigitsCore 16 fuel n ds = Nat.toDigitsCore 16 fuel n [] ++ ds := by
  induction fuel with
  | zero => intro n ds; simp [Nat.toDigitsCore]
  | succ f ih =>
    intro n ds
    simp only [Nat.toDigitsCore]
    split
    · simp
    · rw [ih (n / 16) (Nat.digitChar (n % 16) :: ds), ih (n / 16) [Nat.digitChar (n % 16)]]
      simp

theorem hexValue_snoc (ds : List Char) (c : Char) :
    hexValue (ds ++ [c]) = 16 * hexValue ds + hexDigitValue c := by
  simp [hexValue, List.foldl_append]

theorem hexValue_toDigitsCore (fuel : Nat) : ∀ n : Nat, n < fuel →
    hexValue (Nat.toDigitsCore 16 fuel n []) = n := by
  induction fuel with
  | zero => intro n h; omega
  | succ f ih =>
    intro n h
    simp only [Nat.toDigitsCore]
    split
    · rename_i h0
      have hn : n < 16 := by omega
      have hm : n % 16 = n := Nat.mod_eq_of_lt hn
      simp [hexValue, hm, hexDigitValue_digitChar n hn]
    · rename_i h0
      rw [toDigitsCore_acc, hexValue_snoc, ih (n / 16) (by omega),
        hexDigitValue_digitChar (n % 16) (Nat.mod_lt _ (by norm_num))]
      omega

/-- Reading a hexadecimal numeral back gives the number printed. -/
theorem hexValue_toDigits (n : Nat) : hexValue (Nat.toDigits 16 n) = n :=
  hexValue_toDigitsCore (n + 1) n (Nat.lt_succ_self n)

/-- Different numbers have different hexadecimal numerals. -/
theorem toDigits_hex_inj {a b : Nat} (h : Nat.toDigits 16 a = Nat.toDigits 16 b) :
    a = b := by
  have := congrArg hexValue h
  rwa [hexValue_toDigits, hexValue_toDigits] at this

/-- The message of a status error: procedure name, " returned ", the code in
hexadecimal. -/
theorem statusError_text (proc : String) (n : Nat) :
    (Newf "%s returned %0x" [.str proc, .u32 n]).Error
      = ⟨proc.data ++ (" returned ".data ++ Nat.toDigits 16 n)⟩ := by
  have h : (Newf "%s returned %0x" [.str proc, .u32 n]).Error
      = ⟨proc.data ++ (" returned ".data ++ (Nat.toDigits 16 n ++ []))⟩ := rfl
  rw [h, List.append_nil]

/-- The message of an unknown-reason error. -/
theorem unknownError_text (proc : String) :
    (Newf "%s failed for unknown reason" [.str proc]).Error
      = ⟨proc.data ++ " failed for unknown reason".data⟩ := by
  rfl

/-- Two status errors of one procedure have the same message exactly when
they show the same code. -/
theorem statusError_text_inj (proc : String) (a b : Nat) :
    (Newf "%s returned %0x" [.str proc, .u32 a]).Error
        = (Newf "%s returned %0x" [.str proc, .u32 b]).Error ↔ a = b := by
  constructor
  · intro h
    rw [statusError_text, statusError_text] at h
    have h2 := congrArg String.data h
    simp only [List.append_cancel_left_eq] at h2
    exact toDigits_hex_inj h2
  · intro h
    rw [h]

/-- The message of every error of a primitive starts with the name of its
procedure, followed by a blank. -/
theorem Step.err_firstWord (s : Step) (a b c d e : Nat) (flag : Bool) (reply : Reply)
    (err : GoError) (h : s.err a b c d e flag reply = some err) :
    firstWord err.Error.data = s.proc.data := by
  cases s <;>
    simp only [Step.err, NtCreateSection, NtMapViewOfSection, RtlCreateUserThread,
      NtQueueApcThread, NtQueueApcThreadEx, NtResumeThread] at h <;>
    split_ifs at h <;>
    simp only [Option.some.injEq, reduceCtorEq] at h <;>
    subst h <;> rfl

/-! ## Claims on the ntdll wrappers -/

/-- C1 (the code at the claim's input): for every process handle, destination
address and platform reply, NtWriteVirtualMemory on the empty payload panics
with an index-out-of-range run-time error; it returns no error value. -/
theorem NtWriteVirtualMemory_empty_panics (pHndl dst : Nat) (reply : Reply) :
    NtWriteVirtualMemory pHndl dst [] reply
      = .error "runtime error: index out of range [0] with length 0" := by
  rfl

/-- C2: NtAllocateVirtualMemory returns an error together with address 0 exactly
when the status is non-zero or the address written by the platform is zero, and
it returns the address the platform wrote with a nil error exactly otherwise. -/
theorem NtAllocateVirtualMemory_result (pHndl size allocType protection : Nat)
    (reply : Reply) :
    (((NtAllocateVirtualMemory pHndl size allocType protection reply).err ≠ none ∧
        (NtAllocateVirtualMemory pHndl size allocType protection reply).value = 0)
      ↔ (reply.r1 ≠ 0 ∨ reply.out = 0)) ∧
    (((NtAllocateVirtualMemory pHndl size allocType protection reply).err = none ∧
        (NtAllocateVirtualMemory pHndl size allocType protection reply).value = reply.out)
      ↔ ¬ (reply.r1 ≠ 0 ∨ reply.out = 0)) := by
  unfold NtAllocateVirtualMemory
  by_cases h1 : reply.r1 = 0 <;> by_cases h2 : reply.out = 0 <;> simp [h1, h2]

/-- C3: for NtOpenProcess, NtCreateSection, NtMapViewOfSection and
RtlCreateUserThread, a zero status with a zero handle or base address gives a
non-nil error; the error is nil only when the status is zero and the handle or
address is non-zero; and with a nil error the handle or address handed back is
not zero. -/
theorem zero_handle_is_failure (reply : Reply) :
    (∀ pid access : Nat,
      (reply.r1 = 0 ∧ reply.out = 0 → (NtOpenProcess pid access reply).err ≠ none) ∧
      ((NtOpenProcess pid access reply).err = none → reply.r1 = 0 ∧ reply.out ≠ 0) ∧
      ((NtOpenProcess pid access reply).err = none →
        (NtOpenProcess pid access reply).value ≠ 0)) ∧
    (∀ sHndl access size pagePerms secPerms : Nat,
      (reply.r1 = 0 ∧ reply.out = 0 →
        (NtCreateSection sHndl access size pagePerms secPerms reply).err ≠ none) ∧
      ((NtCreateSection sHndl access size pagePerms secPerms reply).err = none →
        reply.r1 = 0 ∧ reply.out ≠ 0) ∧
      ((NtCreateSection sHndl access size pagePerms secPerms reply).err = none →
        (NtCreateSection sHndl access size pagePerms secPerms reply).value ≠ 0)) ∧
    (∀ sHndl pHndl size inheritPerms pagePerms : Nat,
      (reply.r1 = 0 ∧ reply.out = 0 →
        (NtMapViewOfSection sHndl pHndl size inheritPerms pagePerms reply).err ≠ none) ∧
      ((NtMapViewOfSection sHndl pHndl size inheritPerms pagePerms reply).err = none →
        reply.r1 = 0 ∧ reply.out ≠ 0) ∧
      ((NtMapViewOfSection sHndl pHndl size inheritPerms pagePerms reply).err = none →
        (NtMapViewOfSection sHndl pHndl size inheritPerms pagePerms reply).value ≠ 0)) ∧
    (∀ (pHndl addr : Nat) (sspnd : Bool),
      (reply.r1 = 0 ∧ reply.out = 0 →
        (RtlCreateUserThread pHndl addr sspnd reply).err ≠ none) ∧
      ((RtlCreateUserThread pHndl addr sspnd reply).err = none →
        reply.r1 = 0 ∧ reply.out ≠ 0) ∧
      ((RtlCreateUserThread pHndl addr sspnd reply).err = none →
        (RtlCreateUserThread pHndl addr sspnd reply).value ≠ 0)) := by
  refine ⟨?_, ?_, ?_, ?_⟩
  · intro pid access
    unfold NtOpenProcess
    by_cases h1 : reply.r1 = 0 <;> by_cases h2 : reply.out = 0 <;> simp [h1, h2]
  · intro sHndl access size pagePerms secPerms
    unfold NtCreateSection
    by_cases h1 : reply.r1 = 0 <;> by_cases h2 : reply.out = 0 <;> simp [h1, h2]
  · intro sHndl pHndl size inheritPerms pagePerms
    unfold NtMapViewOfSection
    by_cases h1 : reply.r1 = 0 <;> by_cases h2 : reply.out = 0 <;> simp [h1, h2]
  · intro pHndl addr sspnd
    unfold RtlCreateUserThread
    by_cases h1 : reply.r1 = 0 <;> by_cases h2 : reply.out = 0 <;> simp [h1, h2]

/-- C3 at the reply "status zero, handle zero": each of the four primitives
hands back the unknown-reason error. -/
theorem zero_handle_is_failure_witness :
    (NtOpenProcess 4242 0x1FFFFF ⟨0, 0, ""⟩).err ≠ none ∧
    (NtCreateSection 0 0xF001F 4096 0x40 0x8000000 ⟨0, 0, ""⟩).err ≠ none ∧
    (NtMapViewOfSection 0x44 0x50 4096 2 0x20 ⟨0, 0, ""⟩).err ≠ none ∧
    (RtlCreateUserThread 0x50 0x7FF600001000 true ⟨0, 0, ""⟩).err ≠ none :=
  have h := zero_handle_is_failure ⟨0, 0, ""⟩
  ⟨(h.1 4242 0x1FFFFF).1 ⟨rfl, rfl⟩,
   (h.2.1 0 0xF001F 4096 0x40 0x8000000).1 ⟨rfl, rfl⟩,
   (h.2.2.1 0x44 0x50 4096 2 0x20).1 ⟨rfl, rfl⟩,
   (h.2.2.2 0x50 0x7FF600001000 true).1 ⟨rfl, rfl⟩⟩

/-- C4 (as stated, refuted): on the access-denied status NtOpenProcess builds
its error from the same format as on the statuses `STATUS_INVALID_CID`
(0xC000000B, no such process) and `STATUS_UNSUCCESSFUL` (0xC0000001): there is
one kind of status error, not an AccessDenied kind apart from a NotFound and a
generic one. -/
theorem NtOpenProcess_access_denied_not_a_kind :
    ((NtOpenProcess 4242 0x1FFFFF ⟨STATUS_ACCESS_DENIED, 0, ""⟩).err.map GoError.format
        = some "%s returned %0x") ∧
    ((NtOpenProcess 4242 0x1FFFFF ⟨0xC000000B, 0, ""⟩).err.map GoError.format
        = some "%s returned %0x") ∧
    ((NtOpenProcess 4242 0x1FFFFF ⟨0xC0000001, 0, ""⟩).err.map GoError.format
        = some "%s returned %0x") := by
  decide

/-- C4 (amended): when the platform reports the access-denied status,
NtOpenProcess issues its one call and hands back handle 0 with the status error
"NtOpenProcess returned c0000022", whatever the process id, the access mask and
the rest of the reply (so the same refusal gives the same result); that error
has the format every other non-zero status gets. -/
theorem NtOpenProcess_access_denied (pid access : Nat) (reply : Reply)
    (h : reply.r1 = STATUS_ACCESS_DENIED) :
    NtOpenProcess pid access reply
        = ⟨[⟨"NtOpenProcess", [.ptr [0], .val access, .ptr [0, 0, 0, 0, 0, 0], .ptr [pid, 0]]⟩],
            "", 0,
            some (Newf "%s returned %0x" [.str "NtOpenProcess", .u32 0xC0000022])⟩ ∧
    (NtOpenProcess pid access reply).err.map GoError.Error
        = some "NtOpenProcess returned c0000022" ∧
    (∀ other : Reply, other.r1 ≠ 0 →
      (NtOpenProcess pid access other).err.map GoError.format
        = (NtOpenProcess pid access reply).err.map GoError.format) := by
  have hne : reply.r1 ≠ 0 := by rw [h]; decide
  have hval : NtOpenProcess pid access reply
      = ⟨[⟨"NtOpenProcess", [.ptr [0], .val access, .ptr [0, 0, 0, 0, 0, 0], .ptr [pid, 0]]⟩],
          "", 0,
          some (Newf "%s returned %0x" [.str "NtOpenProcess", .u32 0xC0000022])⟩ := by
    simp only [NtOpenProcess, if_pos hne, h]
    rfl
  refine ⟨hval, ?_, ?_⟩
  · rw [hval]
    show Option.map GoError.Error
        (some (Newf "%s returned %0x" [.str "NtOpenProcess", .u32 0xC0000022]))
      = some "NtOpenProcess returned c0000022"
    decide
  · intro other ho
    rw [hval]
    simp only [NtOpenProcess, if_pos ho]
    rfl

/-- C4 (amended) at process 4242, mask 0x1FFFFF and the access-denied status. -/
theorem NtOpenProcess_access_denied_witness :
    (NtOpenProcess 4242 0x1FFFFF ⟨0xC0000022, 0, ""⟩).err.map GoError.Error
      = some "NtOpenProcess returned c0000022" :=
  (NtOpenProcess_access_denied 4242 0x1FFFFF ⟨0xC0000022, 0, ""⟩ rfl).2.1

/-- C5 (as stated, refuted): the status words 0x100000005 and 0x5 differ, both
fit a 64-bit machine word, and NtOpenProcess gives both the message
"NtOpenProcess returned 5"; the code shown for the first is not the status. -/
theorem status_high_bits_not_shown :
    (0x100000005 : Nat) ≠ 0x5 ∧ (0x100000005 : Nat) < 2 ^ 64 ∧
    (NtOpenProcess 4242 0x1FFFFF ⟨0x100000005, 0, ""⟩).err.map GoError.Error
      = some "NtOpenProcess returned 5" ∧
    (NtOpenProcess 4242 0x1FFFFF ⟨0x5, 0, ""⟩).err.map GoError.Error
      = some "NtOpenProcess returned 5" := by
  decide

/-- C5 (amended): on a non-zero status every ntdll wrapper hands back the error
whose message is the procedure name, " returned ", and the status reduced
modulo 2^32 in hexadecimal (NtWriteVirtualMemory: on a non-empty payload, the
only case in which it calls the platform); two status words give one procedure
the same message exactly when they agree modulo 2^32, and a status below 2^32
is shown as it is. -/
theorem status_error_message (reply : Reply) (h : reply.r1 ≠ 0) :
    (∀ pHndl size allocType protection : Nat,
      (NtAllocateVirtualMemory pHndl size allocType protection reply).err.map GoError.Error
        = some (statusMessage "NtAllocateVirtualMemory" reply.r1)) ∧
    (∀ sHndl access size pagePerms secPerms : Nat,
      (NtCreateSection sHndl access size pagePerms secPerms reply).err.map GoError.Error
        = some (statusMessage "NtCreateSection" reply.r1)) ∧
    (∀ sHndl pHndl size inheritPerms pagePerms : Nat,
      (NtMapViewOfSection sHndl pHndl size inheritPerms pagePerms reply).err.map GoError.Error
        = some (statusMessage "NtMapViewOfSection" reply.r1)) ∧
    (∀ pid access : Nat,
      (NtOpenProcess pid access reply).err.map GoError.Error
        = some (statusMessage "NtOpenProcess" reply.r1)) ∧
    (∀ tHndl apcRoutine : Nat,
      (NtQueueApcThread tHndl apcRoutine reply).err.map GoError.Error
        = some (statusMessage "NtQueueApcThread" reply.r1)) ∧
    (∀ tHndl apcRoutine : Nat,
      (NtQueueApcThreadEx tHndl apcRoutine reply).err.map GoError.Error
        = some (statusMessage "NtQueueApcThreadEx" reply.r1)) ∧
    (∀ tHndl : Nat,
      (NtResumeThread tHndl reply).err.map GoError.Error
        = some (statusMessage "NtResumeThread" reply.r1)) ∧
    (∀ (pHndl dst : Nat) (b : List Nat), b ≠ [] →
      (NtWriteVirtualMemory pHndl dst b reply).map (fun r => r.err.map GoError.Error)
        = .ok (some (statusMessage "NtWriteVirtualMemory" reply.r1))) ∧
    (∀ (pHndl addr : Nat) (sspnd : Bool),
      (RtlCreateUserThread pHndl addr sspnd reply).err.map GoError.Error
        = some (statusMessage "RtlCreateUserThread" reply.r1)) ∧
    (∀ (proc : String) (status : Nat),
      statusMessage proc reply.r1 = statusMessage proc status
        ↔ reply.r1 % 2 ^ 32 = status % 2 ^ 32) ∧
    (∀ proc : String, reply.r1 < 2 ^ 32 →
      statusMessage proc reply.r1
        = ⟨proc.data ++ (" returned ".data ++ Nat.toDigits 16 reply.r1)⟩) := by
  refine ⟨?_, ?_, ?_, ?_, ?_, ?_, ?_, ?_, ?_, ?_, ?_⟩
  · intro pHndl size allocType protection
    simp only [NtAllocateVirtualMemory, if_pos h, Option.map_some', statusError_text,
      statusMessage]
  · intro sHndl access size pagePerms secPerms
    simp only [NtCreateSection, if_pos h, Option.map_some', statusError_text, statusMessage]
  · intro sHndl pHndl size inheritPerms pagePerms
    simp only [NtMapViewOfSection, if_pos h, Option.map_some', statusError_text,
      statusMessage]
  · intro pid access
    simp only [NtOpenProcess, if_pos h, Option.map_some', statusError_text, statusMessage]
  · intro tHndl apcRoutine
    simp only [NtQueueApcThread, if_pos h, Option.map_some', statusError_text, statusMessage]
  · intro tHndl apcRoutine
    simp only [NtQueueApcThreadEx, if_pos h, Option.map_some', statusError_text,
      statusMessage]
  · intro tHndl
    simp only [NtResumeThread, if_pos h, Option.map_some', statusError_text, statusMessage]
  · intro pHndl dst b hb
    cases b with
    | nil => exact absurd rfl hb
    | cons b0 bs =>
      simp only [NtWriteVirtualMemory, if_pos h, Except.map, Option.map_some',
        statusError_text, statusMessage]
  · intro pHndl addr sspnd
    simp only [RtlCreateUserThread, if_pos h, Option.map_some', statusError_text,
      statusMessage]
  · intro proc status
    constructor
    · intro heq
      have h2 := congrArg String.data heq
      simp only [statusMessage, List.append_cancel_left_eq] at h2
      exact toDigits_hex_inj h2
    · intro heq
      simp only [statusMessage, heq]
  · intro proc hlt
    simp only [statusMessage, Nat.mod_eq_of_lt hlt]

/-- C5 (amended) at the statuses 0xC0000022 and 0x1C0000022, which agree modulo
2^32: NtResumeThread shows "c0000022" and the two messages coincide. -/
theorem status_error_message_witness :
    (NtResumeThread 0x58 ⟨0xC0000022, 0, ""⟩).err.map GoError.Error
      = some (statusMessage "NtResumeThread" 0xC0000022) ∧
    statusMessage "NtResumeThread" 0xC0000022 = "NtResumeThread returned c0000022" ∧
    statusMessage "NtResumeThread" 0xC0000022 = statusMessage "NtResumeThread" 0x1C0000022 :=
  have h := status_error_message ⟨0xC0000022, 0, ""⟩ (by decide)
  ⟨h.2.2.2.2.2.2.1 0x58, by decide,
    (h.2.2.2.2.2.2.2.2.2.1 "NtResumeThread" 0x1C0000022).2 (by decide)⟩

/-- C6: two different primitives among NtCreateSection, NtMapViewOfSection,
RtlCreateUserThread, NtQueueApcThread, NtQueueApcThreadEx and NtResumeThread
never hand back the same error: whatever the inputs and the platform replies
that make both fail, the two error messages differ (each starts with the name
of its own procedure), and so do the error values. -/
theorem failures_distinguishable (s1 s2 : Step) (hne : s1 ≠ s2)
    (a1 b1 c1 d1 e1 a2 b2 c2 d2 e2 : Nat) (flag1 flag2 : Bool) (reply1 reply2 : Reply)
    (err1 err2 : GoError)
    (h1 : s1.err a1 b1 c1 d1 e1 flag1 reply1 = some err1)
    (h2 : s2.err a2 b2 c2 d2 e2 flag2 reply2 = some err2) :
    err1.Error ≠ err2.Error ∧ err1 ≠ err2 := by
  have key : err1.Error ≠ err2.Error := by
    intro heq
    have w1 := Step.err_firstWord s1 a1 b1 c1 d1 e1 flag1 reply1 err1 h1
    have w2 := Step.err_firstWord s2 a2 b2 c2 d2 e2 flag2 reply2 err2 h2
    rw [heq, w2] at w1
    apply hne
    cases s1 <;> cases s2 <;> first | rfl | (exact absurd w1 (by decide))
  exact ⟨key, fun heq => key (by rw [heq])⟩

/-- C6 at a section creation that fails with status zero and a zero handle and
a mapping that fails with status 0xC0000017. -/
theorem failures_distinguishable_witness :
    (Newf "%s failed for unknown reason" [.str "NtCreateSection"]).Error
      ≠ (Newf "%s returned %0x" [.str "NtMapViewOfSection", .u32 0xC0000017]).Error :=
  (failures_distinguishable .createSection .mapViewOfSection (by decide)
    0 0xF001F 4096 0x40 0x8000000 0x44 0x50 4096 2 0x20 false false
    ⟨0, 0, ""⟩ ⟨0xC0000017, 0, ""⟩ _ _ rfl rfl).1

/-- C7: NtQueueApcThread and NtQueueApcThreadEx hand back a nil error exactly
when the status is zero; each issues one call, the legacy form with the thread
handle, the callback address and three zeros, the extended form with the same
arguments and the reserved handle 1 put in second place: taking that one
argument out of the extended call leaves the arguments of the legacy call. -/
theorem queue_variants_same_contract (tHndl apcRoutine : Nat) (reply : Reply) :
    ((NtQueueApcThread tHndl apcRoutine reply).err = none ↔ reply.r1 = 0) ∧
    ((NtQueueApcThreadEx tHndl apcRoutine reply).err = none ↔ reply.r1 = 0) ∧
    (NtQueueApcThread tHndl apcRoutine reply).calls
      = [⟨"NtQueueApcThread", [.val tHndl, .val apcRoutine, .val 0, .val 0, .val 0]⟩] ∧
    (NtQueueApcThreadEx tHndl apcRoutine reply).calls
      = [⟨"NtQueueApcThreadEx",
          [.val tHndl, .val 1, .val apcRoutine, .val 0, .val 0, .val 0]⟩] ∧
    (NtQueueApcThreadEx tHndl apcRoutine reply).calls.map (fun c => c.args.eraseIdx 1)
      = (NtQueueApcThread tHndl apcRoutine reply).calls.map (fun c => c.args) := by
  unfold NtQueueApcThread NtQueueApcThreadEx
  by_cases h : reply.r1 = 0 <;> simp [h]

/-- C8: RtlCreateUserThread issues one call whose create-suspended argument is
1 when `sspnd` is true and 0 when it is false, and whose start address is the
entry address given; the value and the error handed back do not depend on the
flag. -/
theorem RtlCreateUserThread_suspend_flag (pHndl addr : Nat) (sspnd : Bool)
    (reply : Reply) :
    (RtlCreateUserThread pHndl addr sspnd reply).calls
      = [⟨"RtlCreateUserThread",
          [.val pHndl, .val 0, .val (if sspnd then 1 else 0), .val 0, .val 0, .val 0,
            .val addr, .val 0, .ptr [0], .val 0]⟩] ∧
    ((RtlCreateUserThread pHndl addr sspnd reply).calls.map (fun c => c.args.get? 2)
      = [some (.val 1)] ↔ sspnd = true) ∧
    ((RtlCreateUserThread pHndl addr sspnd reply).calls.map (fun c => c.args.get? 2)
      = [some (.val 0)] ↔ sspnd = false) ∧
    (RtlCreateUserThread pHndl addr sspnd reply).calls.map (fun c => c.args.get? 6)
      = [some (.val addr)] ∧
    (RtlCreateUserThread pHndl addr true reply).value
      = (RtlCreateUserThread pHndl addr false reply).value ∧
    (RtlCreateUserThread pHndl addr true reply).err
      = (RtlCreateUserThread pHndl addr false reply).err := by
  unfold RtlCreateUserThread
  by_cases h1 : reply.r1 = 0 <;> by_cases h2 : reply.out = 0 <;> cases sspnd <;>
    simp [h1, h2]

/-- C9 (as stated, refuted): NtCreateSection succeeds with the section handle
0x44, NtMapViewOfSection on that handle then fails with status 0xC0000017, and
neither of the two wrappers has issued a call that releases the handle. -/
theorem section_handle_not_released :
    (NtCreateSection 0 0xF001F 4096 0x40 0x8000000 ⟨0, 0x44, ""⟩).err = none ∧
    (NtCreateSection 0 0xF001F 4096 0x40 0x8000000 ⟨0, 0x44, ""⟩).value = 0x44 ∧
    (NtMapViewOfSection 0x44 0x50 4096 2 0x20 ⟨0xC0000017, 0, ""⟩).err ≠ none ∧
    (((NtCreateSection 0 0xF001F 4096 0x40 0x8000000 ⟨0, 0x44, ""⟩).calls ++
        (NtMapViewOfSection 0x44 0x50 4096 2 0x20 ⟨0xC0000017, 0, ""⟩).calls).any
      (fun c => c.releases 0x44)) = false := by
  decide

/-- C9 (amended): NtCreateSection and NtMapViewOfSection each issue exactly one
platform call, the one to their own procedure, whatever the platform replies;
in particular a failing NtMapViewOfSection releases no handle, and the section
handle stays with the caller. -/
theorem section_path_calls (sHndl0 access size pagePerms secPerms sHndl pHndl
    inheritPerms mapPerms : Nat) (created mapped : Reply) :
    (NtCreateSection sHndl0 access size pagePerms secPerms created).calls.map Call.proc
      = ["NtCreateSection"] ∧
    (NtMapViewOfSection sHndl pHndl size inheritPerms mapPerms mapped).calls.map Call.proc
      = ["NtMapViewOfSection"] ∧
    (∀ h : Nat,
      ((NtCreateSection sHndl0 access size pagePerms secPerms created).calls ++
        (NtMapViewOfSection sHndl pHndl size inheritPerms mapPerms mapped).calls).any
          (fun c => c.releases h) = false) := by
  have hc : (NtCreateSection sHndl0 access size pagePerms secPerms created).calls
      = [⟨"NtCreateSection", [.ptr [sHndl0], .val access, .val 0, .ptr [size],
          .val pagePerms, .val secPerms, .val 0]⟩] := by
    unfold NtCreateSection
    by_cases h1 : created.r1 = 0 <;> by_cases h2 : created.out = 0 <;> simp [h1, h2]
  have hm : (NtMapViewOfSection sHndl pHndl size inheritPerms mapPerms mapped).calls
      = [⟨"NtMapViewOfSection", [.val sHndl, .val pHndl, .ptr [0], .val 0, .val 0,
          .ptr [0], .ptr [size], .val inheritPerms, .val 0, .val mapPerms]⟩] := by
    unfold NtMapViewOfSection
    by_cases h1 : mapped.r1 = 0 <;> by_cases h2 : mapped.out = 0 <;> simp [h1, h2]
  rw [hc, hm]
  refine ⟨rfl, rfl, ?_⟩
  intro h
  simp [Call.releases]

/-! ## The header wrappers on ASCII and on the empty header -/

/-- An ASCII text has as many bytes as code points. -/
theorem len_of_ascii (cs : List Char) (h : ∀ c ∈ cs, c.toNat < 0x80) :
    (cs.map utf8Len).sum = cs.length := by
  induction cs with
  | nil => rfl
  | cons c cs ih =>
    have hc : c.toNat < 0x80 := h c (List.mem_cons_self c cs)
    have ih2 := ih (fun d hd => h d (List.mem_cons_of_mem c hd))
    simp only [List.map_cons, List.sum_cons, List.length_cons, ih2, utf8Len, if_pos hc]
    omega

/-- An ASCII text has as many wide characters as code points. -/
theorem utf16_of_ascii (cs : List Char) (h : ∀ c ∈ cs, c.toNat < 0x80) :
    ((cs.map utf16Units).flatten).length = cs.length := by
  induction cs with
  | nil => rfl
  | cons c cs ih =>
    have hc : c.toNat < 0x10000 := by
      have := h c (List.mem_cons_self c cs)
      omega
    have ih2 := ih (fun d hd => h d (List.mem_cons_of_mem c hd))
    simp only [List.map_cons, List.flatten_cons, List.length_append, List.length_cons, ih2,
      utf16Units, if_pos hc, List.length_nil]
    omega

/-- A non-empty text without NUL is handed on as a pointer to its UTF-16
encoding and a terminator. -/
theorem LpCwstr_of_ascii (t : String) (hne : t ≠ "")
    (h : ∀ c ∈ t.data, 0 < c.toNat) :
    LpCwstr t = .ptr (utf16Encode t ++ [0]) := by
  have hany : (t.data.any (fun c => c.toNat == 0)) = false := by
    rw [List.any_eq_false]
    intro c hc
    have := h c hc
    simp only [beq_iff_eq]
    omega
  simp only [LpCwstr, if_neg hne, Cwstr, UTF16PtrFromString, hany, Bool.false_eq_true, if_false]

/-- For a non-empty header whose trimmed text is ASCII without NUL, both header
wrappers hand the platform the trimmed text followed by CRLF and, as length,
its number of wide characters. -/
theorem AddRequestHeaders_of_ascii (reqHndl addMethod : Nat) (header : String)
    (reply : Reply) (hne : header ≠ "")
    (hascii : ∀ c ∈ (TrimSpace header).data, 0 < c.toNat ∧ c.toNat < 0x80) :
    (WinHTTPAddRequestHeaders reqHndl header addMethod reply).calls
      = [⟨"WinHttpAddRequestHeaders",
          [.val reqHndl, .ptr (utf16Encode (TrimSpace header ++ "\r\n") ++ [0]),
            .val (utf16Encode (TrimSpace header ++ "\r\n")).length, .val addMethod]⟩] ∧
    (HTTPAddRequestHeadersW reqHndl header addMethod reply).calls
      = [⟨"HttpAddRequestHeadersW",
          [.val reqHndl, .ptr (utf16Encode (TrimSpace header ++ "\r\n") ++ [0]),
            .val (utf16Encode (TrimSpace header ++ "\r\n")).length, .val addMethod]⟩] := by
  have hdata : (TrimSpace header ++ "\r\n").data = (TrimSpace header).data ++ ['\r', '\n'] :=
    rfl
  have hall : ∀ c ∈ (TrimSpace header ++ "\r\n").data, 0 < c.toNat ∧ c.toNat < 0x80 := by
    intro c hc
    rw [hdata, List.mem_append] at hc
    rcases hc with hc | hc
    · exact hascii c hc
    · simp only [List.mem_cons, List.mem_singleton, List.not_mem_nil, or_false] at hc
      rcases hc with rfl | rfl <;> decide
  have htne : TrimSpace header ++ "\r\n" ≠ "" := by
    intro h0
    have := congrArg String.data h0
    rw [hdata] at this
    simp at this
  have hp := LpCwstr_of_ascii _ htne (fun c hc => (hall c hc).1)
  have hl : len (TrimSpace header ++ "\r\n")
      = (utf16Encode (TrimSpace header ++ "\r\n")).length := by
    rw [len, utf16Encode, len_of_ascii _ (fun c hc => (hall c hc).2),
      utf16_of_ascii _ (fun c hc => (hall c hc).2)]
  constructor
  · simp only [WinHTTPAddRequestHeaders, if_neg hne, hp, hl]
    split_ifs <;> rfl
  · simp only [HTTPAddRequestHeadersW, if_neg hne, hp, hl]
    split_ifs <;> rfl

/-- For the empty header both wrappers issue no call and hand back nil. -/
theorem AddRequestHeaders_empty (reqHndl addMethod : Nat) (reply : Reply) :
    WinHTTPAddRequestHeaders reqHndl "" addMethod reply = ⟨[], "", (), none⟩ ∧
    HTTPAddRequestHeadersW reqHndl "" addMethod reply = ⟨[], "", (), none⟩ :=
  ⟨rfl, rfl⟩

/-- C10 (the code at a header outside ASCII): for the one-letter header "é"
both wrappers hand the platform the wide string "é\r\n", three wide characters
and the terminator, and the length 4, the number of bytes of its UTF-8 form. -/
theorem AddRequestHeaders_length_counts_bytes (reqHndl addMethod : Nat) (reply : Reply) :
    (WinHTTPAddRequestHeaders reqHndl "\u00e9" addMethod reply).calls
      = [⟨"WinHttpAddRequestHeaders",
          [.val reqHndl, .ptr [0xE9, 0x0D, 0x0A, 0], .val 4, .val addMethod]⟩] ∧
    (HTTPAddRequestHeadersW reqHndl "\u00e9" addMethod reply).calls
      = [⟨"HttpAddRequestHeadersW",
          [.val reqHndl, .ptr [0xE9, 0x0D, 0x0A, 0], .val 4, .val addMethod]⟩] ∧
    (utf16Encode (TrimSpace "\u00e9" ++ "\r\n")).length = 3 := by
  have hne : ("\u00e9" : String) ≠ "" := by decide
  have hp : LpCwstr (TrimSpace "\u00e9" ++ "\r\n") = .ptr [0xE9, 0x0D, 0x0A, 0] := by decide
  have hl : len (TrimSpace "\u00e9" ++ "\r\n") = 4 := by decide
  refine ⟨?_, ?_, by decide⟩
  · simp only [WinHTTPAddRequestHeaders, if_neg hne, hp, hl]
    split_ifs <;> rfl
  · simp only [HTTPAddRequestHeadersW, if_neg hne, hp, hl]
    split_ifs <;> rfl

/-! ## Claims on the winhttp wrappers and the client -/

/-- The loop over the accept types appends, to what the slice holds already,
the converted non-empty entries in their order. -/
theorem acceptTypes_foldl (acceptTypes : List String) (acc : List (Option (List Nat))) :
    acceptTypes.foldl
        (fun acc theType => if theType = "" then acc else acc ++ [Cwstr theType]) acc
      = acc ++ (acceptTypes.filter (fun t => t != "")).map Cwstr := by
  induction acceptTypes generalizing acc with
  | nil => simp
  | cons t ts ih =>
    by_cases ht : t = ""
    · simp [List.foldl_cons, ht, ih]
    · simp [List.foldl_cons, ht, ih, List.filter_cons]

/-- For every list of accept types, the array both wrappers hand the platform
is one nil pointer followed by the converted non-empty entries in their order:
the nil pointer comes first and nothing follows the last entry. -/
theorem OpenRequest_accept_array (connHndl : Nat) (verb objectName version referrer : String)
    (acceptTypes : List String) (flags context : Nat) (reply : Reply) :
    (WinHTTPOpenRequest connHndl verb objectName version referrer acceptTypes flags
        reply).calls.map (fun c => c.args.get? 5)
      = [some (.ptrs (none :: (acceptTypes.filter (fun t => t != "")).map Cwstr))] ∧
    (HTTPOpenRequestW connHndl verb objectName version referrer acceptTypes flags context
        reply).calls.map (fun c => c.args.get? 5)
      = [some (.ptrs (none :: (acceptTypes.filter (fun t => t != "")).map Cwstr))] := by
  constructor
  · simp only [WinHTTPOpenRequest, acceptTypes_foldl]
    split_ifs <;> rfl
  · simp only [HTTPOpenRequestW, acceptTypes_foldl]
    split_ifs <;> rfl

/-- C11 (the code at one accept type): for the list with the one entry
"text/html" both wrappers hand the platform the array that holds the nil
pointer first and the pointer to the wide string "text/html" after it, with no
nil pointer behind that entry. -/
theorem OpenRequest_accept_array_null_first (connHndl : Nat)
    (verb objectName version referrer : String) (flags context : Nat) (reply : Reply) :
    (WinHTTPOpenRequest connHndl verb objectName version referrer ["text/html"] flags
        reply).calls.map (fun c => c.args.get? 5)
      = [some (.ptrs [none,
          some [0x74, 0x65, 0x78, 0x74, 0x2F, 0x68, 0x74, 0x6D, 0x6C, 0]])] ∧
    (HTTPOpenRequestW connHndl verb objectName version referrer ["text/html"] flags context
        reply).calls.map (fun c => c.args.get? 5)
      = [some (.ptrs [none,
          some [0x74, 0x65, 0x78, 0x74, 0x2F, 0x68, 0x74, 0x6D, 0x6C, 0]])] := by
  have h : (["text/html"].foldl
      (fun acc theType => if theType = "" then acc else acc ++ [Cwstr theType]) [none])
      = [none, some [0x74, 0x65, 0x78, 0x74, 0x2F, 0x68, 0x74, 0x6D, 0x6C, 0]] := by
    decide
  constructor
  · simp only [WinHTTPOpenRequest, h]
    split_ifs <;> rfl
  · simp only [HTTPOpenRequestW, h]
    split_ifs <;> rfl

/-- C12: for every user agent, proxy name and platform reply, NewClient hands
back a non-nil client and a nil error; the client holds the word the platform
returned as session handle, and whenever WinHTTPOpen on that reply fails, that
word is zero. -/
theorem NewClient_swallows_error (W : WinhttpDefs) (lpCwstr : String → String)
    (userAgent proxyname : String) (reply : Reply) :
    (NewClient W lpCwstr userAgent proxyname reply).err = none ∧
    (NewClient W lpCwstr userAgent proxyname reply).value.isSome = true ∧
    (NewClient W lpCwstr userAgent proxyname reply).value.map Client.hndl
      = some reply.r1 ∧
    (∀ (accessType : Nat) (proxy : String),
      (WinHTTPOpen userAgent accessType proxy "" 0 reply).err ≠ none →
        (NewClient W lpCwstr userAgent proxyname reply).value.map Client.hndl = some 0) ∧
    (NewClient W lpCwstr userAgent proxyname reply).calls.map Call.proc = ["WinHttpOpen"] := by
  unfold NewClient WinHTTPOpen
  by_cases hp : proxyname = "" <;> by_cases hr : reply.r1 = 0 <;> simp [hp, hr]

/-- C12 at a failing WinHTTPOpen (the platform returns the session handle 0):
no error comes back and the client holds the handle 0. -/
theorem NewClient_swallows_error_witness :
    (WinHTTPOpen "agent" 3 "proxy:8080" "" 0 ⟨0, 0, "The handle is invalid."⟩).err ≠ none ∧
    (NewClient winhttpH id "agent" "proxy:8080" ⟨0, 0, "The handle is invalid."⟩).err = none ∧
    (NewClient winhttpH id "agent" "proxy:8080"
        ⟨0, 0, "The handle is invalid."⟩).value.map Client.hndl = some 0 :=
  have h := NewClient_swallows_error winhttpH id "agent" "proxy:8080"
    ⟨0, 0, "The handle is invalid."⟩
  ⟨by decide, h.1, h.2.2.2.1 3 "proxy:8080" (by decide)⟩

/-- For a positive duration, the `uint32` of its milliseconds is the number of
whole milliseconds modulo 2^32. -/
theorem Milliseconds_of_pos (t : Int) (h : 0 < t) :
    (Milliseconds t % 2 ^ 32).toNat = t.toNat / 1000000 % 2 ^ 32 := by
  obtain ⟨n, rfl⟩ := Int.eq_ofNat_of_zero_le (le_of_lt h)
  simp only [Milliseconds, Int.toNat_ofNat]
  have h1 : Int.tdiv (n : Int) 1000000 = ((n / 1000000 : Nat) : Int) := by
    rw [Int.tdiv_eq_ediv (Int.ofNat_nonneg n) (by norm_num)]
    norm_cast
  rw [h1]
  norm_cast

/-- A `WinHTTPSetOption` of four bytes that the platform refuses ends `Do`: nil
response, the wrapped error, and the request not sent. -/
theorem setOption_refused {Response : Type} (calls : List Call) (reqHndl opt v : Nat)
    (reply : Reply) (format : String)
    (next : List Call → Except String (DoRet Response)) (h : reply.r1 = 0) :
    Client.Do.setOption calls
        (WinHTTPSetOption reqHndl opt (PutUint32 v) (PutUint32 v).length reply) format next
      = .ok ⟨calls ++ [setOptionCall reqHndl opt (PutUint32 v)], false, none,
          some (Newf format [.wrapped
            (Newf "%s: %w" [.str "WinHttpSetOption", .wrapped reply.lastErr]).Error])⟩ := by
  simp [Client.Do.setOption, WinHTTPSetOption, PutUint32, setOptionCall, h]

/-- A `WinHTTPSetOption` of four bytes that the platform accepts lets `Do` go on
with the call recorded. -/
theorem setOption_accepted {Response : Type} (calls : List Call) (reqHndl opt v : Nat)
    (reply : Reply) (format : String)
    (next : List Call → Except String (DoRet Response)) (h : reply.r1 ≠ 0) :
    Client.Do.setOption calls
        (WinHTTPSetOption reqHndl opt (PutUint32 v) (PutUint32 v).length reply) format next
      = next (calls ++ [setOptionCall reqHndl opt (PutUint32 v)]) := by
  simp [Client.Do.setOption, WinHTTPSetOption, PutUint32, setOptionCall, h]

/-- C13 (as stated, refuted): a client with a timeout of one second whose
request cannot be built (`buildRequest` hands back an error): `Do` hands that
error on and sets no timeout option at all. -/
theorem Do_sets_nothing_when_build_fails :
    (0 : Int) < (Client.mk 0x10 1000000000 ⟨false⟩).Timeout ∧
    ∃ r, @Client.Do Unit winhttpH (Client.mk 0x10 1000000000 ⟨false⟩)
        (0, some (Newf "%s: %w" [.str "WinHttpConnect", .wrapped "The handle is invalid."]))
        (fun _ => ⟨1, 0, ""⟩) none (some (), none) = .ok r ∧
      r.calls = [] ∧ r.res = none ∧ r.sent = false ∧
      r.err = some (Newf "%s: %w"
        [.str "WinHttpConnect", .wrapped "The handle is invalid."]) :=
  ⟨by decide, _, rfl, rfl, rfl, rfl, rfl⟩

/-- C13 (amended): once `buildRequest` has handed back a request handle without
error, a client with Timeout > 0 sets the connect, receive-response, receive,
resolve and send timeouts in this order, each to the same four bytes, the
little-endian form of Timeout in whole milliseconds modulo 2^32, and each only
after the one before was accepted; when the platform refuses one of them, `Do`
stops there with a nil response and an error, the later ones are not set and
the request is not sent; when all five are accepted they are the first five
calls of `Do`. With Timeout <= 0 the only option `Do` may set is the security
flags. When `buildRequest` hands back an error, `Do` hands it on and sets
nothing. -/
theorem Do_timeouts {Response : Type} (W : WinhttpDefs) (c : Client) (reqHndl : Nat)
    (reply : Nat → Reply) (sendErr : Option GoError)
    (response : Option Response × Option GoError) :
    (0 < c.Timeout →
      (∀ k < 5, (∀ i < k, (reply i).r1 ≠ 0) → (reply k).r1 = 0 →
        ∃ r, Client.Do W c (reqHndl, none) reply sendErr response = .ok r ∧
          r.calls = (timeoutCalls W reqHndl c.Timeout).take (k + 1) ∧
          r.res = none ∧ r.err ≠ none ∧ r.sent = false) ∧
      ((∀ i < 5, (reply i).r1 ≠ 0) →
        ∃ r, Client.Do W c (reqHndl, none) reply sendErr response = .ok r ∧
          r.calls.take 5 = timeoutCalls W reqHndl c.Timeout)) ∧
    (c.Timeout ≤ 0 →
      ∃ r, Client.Do W c (reqHndl, none) reply sendErr response = .ok r ∧
        r.calls = if c.TLSClientConfig.InsecureSkipVerify then
            [setOptionCall reqHndl W.WinhttpOptionSecurityFlags
              (PutUint32 ((0 ||| W.SecurityFlagIgnoreUnknownCa |||
                W.SecurityFlagIgnoreCertDateInvalid ||| W.SecurityFlagIgnoreCertCnInvalid |||
                W.SecurityFlagIgnoreCertWrongUsage) % 2 ^ 32))]
          else []) ∧
    (∀ e : GoError,
      Client.Do W c (reqHndl, some e) reply sendErr response = .ok ⟨[], false, none, some e⟩) := by
  refine ⟨fun hT => ⟨?_, ?_⟩, ?_, fun e => rfl⟩
  · intro k hk hprev hfail
    have hT2 : c.Timeout > 0 := hT
    simp only [Client.Do, if_pos hT2, Milliseconds_of_pos c.Timeout hT]
    interval_cases k
    · simp only [setOption_refused _ _ _ _ _ _ _ hfail]
      exact ⟨_, rfl, rfl, rfl, by simp, rfl⟩
    · have h0 := hprev 0 (by norm_num)
      simp only [setOption_accepted _ _ _ _ _ _ _ h0, setOption_refused _ _ _ _ _ _ _ hfail]
      exact ⟨_, rfl, rfl, rfl, by simp, rfl⟩
    · have h0 := hprev 0 (by norm_num)
      have h1 := hprev 1 (by norm_num)
      simp only [setOption_accepted _ _ _ _ _ _ _ h0, setOption_accepted _ _ _ _ _ _ _ h1,
        setOption_refused _ _ _ _ _ _ _ hfail]
      exact ⟨_, rfl, rfl, rfl, by simp, rfl⟩
    · have h0 := hprev 0 (by norm_num)
      have h1 := hprev 1 (by norm_num)
      have h2 := hprev 2 (by norm_num)
      simp only [setOption_accepted _ _ _ _ _ _ _ h0, setOption_accepted _ _ _ _ _ _ _ h1,
        setOption_accepted _ _ _ _ _ _ _ h2, setOption_refused _ _ _ _ _ _ _ hfail]
      exact ⟨_, rfl, rfl, rfl, by simp, rfl⟩
    · have h0 := hprev 0 (by norm_num)
      have h1 := hprev 1 (by norm_num)
      have h2 := hprev 2 (by norm_num)
      have h3 := hprev 3 (by norm_num)
      simp only [setOption_accepted _ _ _ _ _ _ _ h0, setOption_accepted _ _ _ _ _ _ _ h1,
        setOption_accepted _ _ _ _ _ _ _ h2, setOption_accepted _ _ _ _ _ _ _ h3,
        setOption_refused _ _ _ _ _ _ _ hfail]
      exact ⟨_, rfl, rfl, rfl, by simp, rfl⟩
  · intro hall
    have hT2 : c.Timeout > 0 := hT
    have h0 := hall 0 (by norm_num)
    have h1 := hall 1 (by norm_num)
    have h2 := hall 2 (by norm_num)
    have h3 := hall 3 (by norm_num)
    have h4 := hall 4 (by norm_num)
    simp only [Client.Do, if_pos hT2, Milliseconds_of_pos c.Timeout hT,
      setOption_accepted _ _ _ _ _ _ _ h0, setOption_accepted _ _ _ _ _ _ _ h1,
      setOption_accepted _ _ _ _ _ _ _ h2, setOption_accepted _ _ _ _ _ _ _ h3,
      setOption_accepted _ _ _ _ _ _ _ h4]
    obtain ⟨res, rerr⟩ := response
    cases hs : c.TLSClientConfig.InsecureSkipVerify <;> cases sendErr <;> cases rerr <;>
      by_cases h5 : (reply 5).r1 = 0 <;>
      simp [Client.Do.setOption, WinHTTPSetOption, PutUint32, setOptionCall, h5,
        timeoutCalls]
  · intro hT
    have hT2 : ¬ c.Timeout > 0 := not_lt.mpr hT
    simp only [Client.Do, if_neg hT2]
    obtain ⟨res, rerr⟩ := response
    cases hs : c.TLSClientConfig.InsecureSkipVerify <;> cases sendErr <;> cases rerr <;>
      by_cases h5 : (reply 5).r1 = 0 <;>
      simp [Client.Do.setOption, WinHTTPSetOption, PutUint32, setOptionCall, h5]

/-- C13 (amended) at a timeout of 1.5 seconds, with the constants of winhttp.h
and a platform that accepts the connect and receive-response timeouts and
refuses the receive timeout: `Do` stops after these three calls, each carrying
the bytes DC 05 00 00 (1500), with a nil response and the request not sent. -/
theorem Do_timeouts_witness :
    (∃ r, @Client.Do Unit winhttpH (Client.mk 0x10 1500000000 ⟨false⟩) (0x20, none)
        (fun n => if n = 2 then ⟨0, 0, "refused"⟩ else ⟨1, 0, ""⟩) none (some (), none)
          = .ok r ∧
      r.calls = (timeoutCalls winhttpH 0x20 1500000000).take (2 + 1) ∧
      r.res = none ∧ r.err ≠ none ∧ r.sent = false) ∧
    (timeoutCalls winhttpH 0x20 1500000000).take (2 + 1)
      = [setOptionCall 0x20 3 [0xDC, 0x05, 0, 0], setOptionCall 0x20 7 [0xDC, 0x05, 0, 0],
          setOptionCall 0x20 6 [0xDC, 0x05, 0, 0]] :=
  ⟨((Do_timeouts winhttpH (Client.mk 0x10 1500000000 ⟨false⟩) 0x20
      (fun n => if n = 2 then ⟨0, 0, "refused"⟩ else ⟨1, 0, ""⟩) none (some (), none)).1
        (by decide)).1 2 (by decide) (by decide) (by decide),
    by decide⟩

end Win
